import Mathlib

/-!
Verification development for the jack-bridge-local service
(src/jack-bridge-local/src/main.cpp).

The C++ service is shallowly embedded:
* the external JACK engine is an oracle structure `JackEngine` describing
  the outcomes of the engine calls (jack_client_open, jack_activate,
  jack_get_sample_rate, jack_get_ports, jack_connect, jack_disconnect, ...);
* the mutable globals `g_jackClient` / `g_jackRunning` become the explicit
  state `JackState`, threaded through every operation;
* each `JackManager` method and each `HttpServer` handler becomes a pure
  function from engine oracle and state to result and next state;
* where a claim is about which manager methods a handler invokes, the
  handler additionally returns the list of `ManagerCall`s it performed, in
  order;
* the `std::lock_guard<std::mutex> lock(g_jackMutex)` discipline of each
  `JackManager` method is transcribed separately as a list of `LockEvent`s
  (acquire at entry, release at every exit; nested calls inline their own
  trace).
-/

/-- Outcome oracle for the external JACK engine: one field per engine call
the service performs, describing what the engine would answer. -/
structure JackEngine where
  /-- jack_client_open returns a non-null client. -/
  openOk : Bool
  /-- the handle value jack_client_open would return. -/
  newHandle : Nat
  /-- jack_activate returns 0. -/
  activateOk : Bool
  /-- jack_get_sample_rate throws (modelling the try/catch in isRunning). -/
  probeThrows : Bool
  /-- value returned by jack_get_sample_rate. -/
  sampleRate : Nat
  /-- value returned by jack_get_buffer_size. -/
  bufferSize : Nat
  /-- value returned by jack_get_client_name. -/
  clientName : String
  /-- jack_get_ports with no flags (null terminated array, [] for null). -/
  allPorts : List String
  /-- jack_get_ports with JackPortIsOutput. -/
  outputPorts : List String
  /-- jack_port_get_all_connections for a named output port. -/
  portConnections : String → List String
  /-- return code of jack_connect(from, to). -/
  connectResult : String → String → Int
  /-- return code of jack_disconnect(from, to). -/
  disconnectResult : String → String → Int

/-- The two JACK-related globals of main.cpp: `g_jackClient` (None for the
null pointer) and the atomic flag `g_jackRunning`. -/
structure JackState where
  jackClient : Option Nat
  jackRunning : Bool
deriving DecidableEq

/-- Windows errno EEXIST, the code jack_connect returns for an existing
connection. -/
def EEXIST : Int := 17

/-- jackShutdownCallback: clears g_jackRunning, leaves the client pointer
untouched. -/
def jackShutdownCallback (s : JackState) : JackState :=
  { s with jackRunning := false }

/-- JackManager::initialize, lines 105-135: if a client already exists it
returns true at once; otherwise it opens a client (failure: state
unchanged), activates it (failure: the fresh client is closed again and
g_jackRunning is left as it was), and on full success stores the handle
and sets g_jackRunning. -/
def initJack (e : JackEngine) (s : JackState) : Bool × JackState :=
  match s.jackClient with
  | some _ => (true, s)
  | none =>
    if e.openOk then
      if e.activateOk then
        (true, { jackClient := some e.newHandle, jackRunning := true })
      else
        (false, { s with jackClient := none })
    else
      (false, s)

/-- JackManager::shutdown, lines 137-146: closes the client if present and
clears both globals; a no-op otherwise. -/
def shutdownJack (s : JackState) : JackState :=
  match s.jackClient with
  | some _ => { jackClient := none, jackRunning := false }
  | none => s

/-- JackManager::isRunning, lines 148-164: false immediately without a
client; otherwise queries the sample rate (catching a throw as false) and
stores the verdict in g_jackRunning. -/
def isRunningJack (e : JackEngine) (s : JackState) : Bool × JackState :=
  match s.jackClient with
  | none => (false, s)
  | some _ =>
    if e.probeThrows then
      (false, { s with jackRunning := false })
    else
      let r := decide (0 < e.sampleRate)
      (r, { s with jackRunning := r })

/-- JackManager::getPorts, lines 166-181: empty without a client, else the
engine's full port list. -/
def getPorts (e : JackEngine) (s : JackState) : List String :=
  match s.jackClient with
  | none => []
  | some _ => e.allPorts

/-- JackManager::getConnections, lines 183-207: for each output port, one
(from, to) pair per connection reported for that port. -/
def getConnections (e : JackEngine) (s : JackState) : List (String × String) :=
  match s.jackClient with
  | none => []
  | some _ => e.outputPorts.flatMap (fun p => (e.portConnections p).map (fun q => (p, q)))

/-- JackManager::connectPorts, lines 209-229: false without a client; a
0 return connects, EEXIST also counts as success, anything else fails. -/
def connectPorts (e : JackEngine) (s : JackState) (src dst : String) : Bool :=
  match s.jackClient with
  | none => false
  | some _ =>
    let result := e.connectResult src dst
    if result = 0 then true
    else if result = EEXIST then true
    else false

/-- JackManager::disconnectPorts, lines 231-248: false without a client;
only a 0 return from jack_disconnect is success. -/
def disconnectPorts (e : JackEngine) (s : JackState) (src dst : String) : Bool :=
  match s.jackClient with
  | none => false
  | some _ => e.disconnectResult src dst = 0

/-- The counting loop of JackManager::clearAllConnections, lines 258-262:
walks the connection list and increments the counter for each edge whose
jack_disconnect returns 0. -/
def clearAllLoop (e : JackEngine) : List (String × String) → Nat → Nat
  | [], cleared => cleared
  | c :: rest, cleared =>
    clearAllLoop e rest (if e.disconnectResult c.1 c.2 = 0 then cleared + 1 else cleared)

/-- JackManager::clearAllConnections, lines 250-266: 0 without a client;
otherwise enumerates the current connections and counts the successful
disconnects. -/
def clearAllConnections (e : JackEngine) (s : JackState) : Nat :=
  match s.jackClient with
  | none => 0
  | some _ => clearAllLoop e (getConnections e s) 0

/-- JackManager::getJackInfo, lines 268-281. -/
def getJackInfo (e : JackEngine) (s : JackState) : String :=
  match s.jackClient with
  | none => "\x7b\x7d"
  | some _ =>
    "\x7b\"sample_rate\":" ++ toString e.sampleRate ++
    ",\"buffer_size\":" ++ toString e.bufferSize ++
    ",\"client_name\":\"" ++ e.clientName ++ "\"\x7d"

/-- A reachable engine oracle used in concrete witnesses: opening,
activating and probing all succeed, and every connect/disconnect call is
accepted. -/
def engineUp : JackEngine :=
  { openOk := true, newHandle := 1, activateOk := true,
    probeThrows := false, sampleRate := 48000, bufferSize := 256,
    clientName := "jack-bridge-local",
    allPorts := ["system:capture_1", "system:playback_1"],
    outputPorts := ["system:capture_1"],
    portConnections := fun _ => ["system:playback_1"],
    connectResult := fun _ _ => 0, disconnectResult := fun _ _ => 0 }

/-- An unreachable engine oracle: every engine call fails. -/
def engineDown : JackEngine :=
  { openOk := false, newHandle := 0, activateOk := false,
    probeThrows := true, sampleRate := 0, bufferSize := 0,
    clientName := "",
    allPorts := [], outputPorts := [],
    portConnections := fun _ => [],
    connectResult := fun _ _ => (-1), disconnectResult := fun _ _ => (-1) }

/-- A reachable engine whose jack_connect reports EEXIST for every pair. -/
def engineEExist : JackEngine :=
  { engineUp with connectResult := fun _ _ => EEXIST }

/-- The state at process start: g_jackClient = nullptr, g_jackRunning = false
(main.cpp lines 48-49). -/
def initialState : JackState :=
  { jackClient := none, jackRunning := false }

/-- A state holding a live handle. -/
def stateConnected : JackState :=
  { jackClient := some 1, jackRunning := true }

/-! ## Lock discipline

Each `JackManager` method opens with
`std::lock_guard<std::mutex> lock(g_jackMutex)`, whose destructor releases
the mutex at every exit of the scope.  The sequences below transcribe, per
method, the g_jackMutex acquire/release events the method performs; a call
to another method inlines that method's own events. -/

inductive LockEvent where
  | acquire
  | release
deriving DecidableEq

/-- Lock events of JackManager::initialize (guard at line 106). -/
def initJackLockTrace : List LockEvent := [.acquire, .release]

/-- Lock events of JackManager::shutdown (guard at line 138). -/
def shutdownJackLockTrace : List LockEvent := [.acquire, .release]

/-- Lock events of JackManager::isRunning (guard at line 149). -/
def isRunningJackLockTrace : List LockEvent := [.acquire, .release]

/-- Lock events of JackManager::getPorts (guard at line 167). -/
def getPortsLockTrace : List LockEvent := [.acquire, .release]

/-- Lock events of JackManager::getConnections (guard at line 184). -/
def getConnectionsLockTrace : List LockEvent := [.acquire, .release]

/-- Lock events of JackManager::connectPorts (guard at line 210). -/
def connectPortsLockTrace : List LockEvent := [.acquire, .release]

/-- Lock events of JackManager::disconnectPorts (guard at line 232). -/
def disconnectPortsLockTrace : List LockEvent := [.acquire, .release]

/-- Lock events of JackManager::getJackInfo (guard at line 269). -/
def getJackInfoLockTrace : List LockEvent := [.acquire, .release]

/-- Lock events of JackManager::clearAllConnections: its own guard at line
251, then the call `getConnections()` at line 255 inlines that method's
guard (line 184); the jack_disconnect loop itself takes no lock. -/
def clearAllConnectionsLockTrace : List LockEvent :=
  [LockEvent.acquire] ++ getConnectionsLockTrace ++ [LockEvent.release]

/-- A trace is balanced when every release matches an earlier acquire and
the depth returns to zero at the end. -/
def traceBalanced : List LockEvent → Nat → Bool
  | [], depth => depth == 0
  | LockEvent.acquire :: rest, depth => traceBalanced rest (depth + 1)
  | LockEvent.release :: rest, depth => depth != 0 && traceBalanced rest (depth - 1)

/-- A trace re-enters the (non-recursive) lock when some acquire happens
while the depth is already positive. -/
def hasNestedAcquire : List LockEvent → Nat → Bool
  | [], _ => false
  | LockEvent.acquire :: rest, depth => decide (0 < depth) || hasNestedAcquire rest (depth + 1)
  | LockEvent.release :: rest, depth => hasNestedAcquire rest (depth - 1)

/-! ## Request parsing helpers

The HTTP layer is hand-rolled string processing; it is embedded over
`List Char` so that everything is structural recursion. -/

/-- The whitespace class used both by `operator>>` extraction and by the
regex class \s. -/
def isWSChar (c : Char) : Bool :=
  c = ' ' || c = '\t' || c = '\n' || c = '\r' || c = '\x0b' || c = '\x0c'

/-- Whitespace-delimited tokenisation, as performed by repeated
`istringstream >> tok` in processRequest (line 397). -/
def tokensAux : List Char → List Char → List String
  | [], acc => if acc.isEmpty then [] else [String.mk acc.reverse]
  | c :: rest, acc =>
    if isWSChar c then
      if acc.isEmpty then tokensAux rest []
      else String.mk acc.reverse :: tokensAux rest []
    else
      tokensAux rest (c :: acc)

/-- All whitespace-separated tokens of a request. -/
def tokensOf (s : String) : List String :=
  tokensAux s.data []

/-- The `method` variable of processRequest: first token, "" when the
stream extraction fails. -/
def parsedMethod (request : String) : String :=
  (tokensOf request).getD 0 ""

/-- The `path` variable of processRequest: second token, "" on failure. -/
def parsedPath (request : String) : String :=
  (tokensOf request).getD 1 ""

/-- Does the pattern occur literally at the head of the text? -/
def headMatches : List Char → List Char → Bool
  | [], _ => true
  | _ :: _, [] => false
  | p :: ps, c :: cs => p = c && headMatches ps cs

/-- Index of the first occurrence of a pattern, as std::string::find
returns it (none for npos). -/
def findSubIdx (pat : List Char) : List Char → Option Nat
  | [] => if headMatches pat [] then some 0 else none
  | c :: rest =>
    if headMatches pat (c :: rest) then some 0
    else (findSubIdx pat rest).map Nat.succ

/-- The blank-line separator handleConnect/handleDisconnect search for. -/
def crlfCrlf : List Char := ['\r', '\n', '\r', '\n']

/-- Consume an exact literal from the head of the text. -/
def dropLiteral : List Char → List Char → Option (List Char)
  | [], cs => some cs
  | _ :: _, [] => none
  | p :: ps, c :: cs => if p = c then dropLiteral ps cs else none

/-- Try to match the regex `"key"\s*:\s*"([^"]+)"` anchored at the head of
the text; on success return the captured value. -/
def matchKeyValueAt (key : List Char) (cs : List Char) : Option (List Char) :=
  match dropLiteral ('"' :: (key ++ ['"'])) cs with
  | none => none
  | some afterKey =>
    match (afterKey.dropWhile isWSChar) with
    | ':' :: afterColon =>
      match (afterColon.dropWhile isWSChar) with
      | '"' :: afterQuote =>
        let value := afterQuote.takeWhile (fun c => c ≠ '"')
        if value.isEmpty then none
        else if value.length < afterQuote.length then some value
        else none
      | _ => none
    | _ => none

/-- Leftmost-match scan of `regex_search`: try the anchored match at every
position, left to right. -/
def extractJsonValueAux (key : List Char) : List Char → List Char
  | [] => []
  | c :: rest =>
    match matchKeyValueAt key (c :: rest) with
    | some value => value
    | none => extractJsonValueAux key rest

/-- HttpServer::extractJsonValue, lines 532-541: first match of
`"key"\s*:\s*"([^"]+)"` in the text, "" when there is none. -/
def extractJsonValue (json key : String) : String :=
  String.mk (extractJsonValueAux key.data json.data)

/-! ## HTTP handlers

Each handler returns the response body, the state after the manager calls
it made, and the ordered list of those calls.  The timestamp string the
real code obtains from the clock is passed in as `now`. -/

/-- The JackManager methods a handler can invoke. -/
inductive ManagerCall where
  | isRunningCall
  | getPortsCall
  | getConnectionsCall
  | getJackInfoCall
  | connectCall (src dst : String)
  | disconnectCall (src dst : String)
  | clearAllCall
  | shutdownCall
  | initCall
deriving DecidableEq

/-- Body × state × manager calls: what one handler produces. -/
def HandlerResult : Type := String × JackState × List ManagerCall

/-- C++ bool to its JSON spelling. -/
def boolStr (b : Bool) : String :=
  if b then "true" else "false"

/-- The key looked up for the connect/disconnect source port. -/
def sourceKey : String := "source"

/-- The key looked up for the connect/disconnect destination port. -/
def destinationKey : String := "destination"

/-- The body `{"success":false,"error":"JACK not running"}` shared by every
handler that bails out when the probe fails. -/
def jackNotRunningBody : String :=
  "\x7b\"success\":false,\"error\":\"JACK not running\"\x7d"

/-- The body returned when a POST request has no blank-line separator. -/
def noBodyErrorBody : String :=
  "\x7b\"success\":false,\"error\":\"No request body\"\x7d"

/-- The body returned when source or destination is absent/empty. -/
def missingFieldBody : String :=
  "\x7b\"success\":false,\"error\":\"Missing source or destination\"\x7d"

/-- The not-found fallback body of processRequest line 428. -/
def notFoundBody (path : String) : String :=
  "\x7b\"error\":\"Not found\",\"path\":\"" ++ path ++ "\"\x7d"

/-- The port-list JSON array built by the loop in getJackPorts
(comma between elements, none after the last). -/
def jsonStringArrayAux : List String → String
  | [] => ""
  | [p] => "\"" ++ p ++ "\""
  | p :: rest => "\"" ++ p ++ "\"," ++ jsonStringArrayAux rest

/-- The `[...]` port array of getJackPorts lines 496-501. -/
def jsonStringArray (l : List String) : String :=
  "[" ++ jsonStringArrayAux l ++ "]"

/-- One `{"from":...,"to":...}` element of the connections array. -/
def connectionObj (c : String × String) : String :=
  "\x7b\"from\":\"" ++ c.1 ++ "\",\"to\":\"" ++ c.2 ++ "\"\x7d"

/-- The connections JSON array of getJackConnections lines 517-523. -/
def jsonConnArrayAux : List (String × String) → String
  | [] => ""
  | [c] => connectionObj c
  | c :: rest => connectionObj c ++ "," ++ jsonConnArrayAux rest

/-- The full `[...]` connections array. -/
def jsonConnArray (l : List (String × String)) : String :=
  "[" ++ jsonConnArrayAux l ++ "]"

/-- HttpServer::getHealthStatus, lines 462-472. -/
def getHealthStatus (e : JackEngine) (s : JackState) (now : String) : HandlerResult :=
  let pr := isRunningJack e s
  ("\x7b\"status\":\"" ++ (if pr.1 then "healthy" else "unhealthy") ++
   "\",\"service\":\"jack-bridge-local\",\"version\":\"1.0.0\",\"jack_running\":" ++
   boolStr pr.1 ++ ",\"platform\":\"windows\",\"api\":\"native\",\"timestamp\":\"" ++
   now ++ "\"\x7d",
   pr.2, [ManagerCall.isRunningCall])

/-- substr(1, length()-2) applied to the info object: strips the outer
braces. -/
def stripOuterBraces (s : String) : String :=
  String.mk ((s.data.drop 1).dropLast)

/-- HttpServer::getJackStatus, lines 474-487; getJackInfo is called twice
when the probe succeeds, matching the two calls in line 482. -/
def getJackStatus (e : JackEngine) (s : JackState) (now : String) : HandlerResult :=
  let pr := isRunningJack e s
  let base := "\x7b\"success\":" ++ boolStr pr.1 ++ ",\"jack_running\":" ++
    boolStr pr.1 ++ ",\"method\":\"native_api\""
  let withInfo :=
    if pr.1 then base ++ "," ++ stripOuterBraces (getJackInfo e pr.2) else base
  (withInfo ++ ",\"timestamp\":\"" ++ now ++ "\"\x7d",
   pr.2,
   if pr.1 then [ManagerCall.isRunningCall, ManagerCall.getJackInfoCall, ManagerCall.getJackInfoCall]
   else [ManagerCall.isRunningCall])

/-- HttpServer::getJackPorts, lines 489-508. -/
def getJackPorts (e : JackEngine) (s : JackState) (now : String) : HandlerResult :=
  let pr := isRunningJack e s
  if !pr.1 then
    (jackNotRunningBody, pr.2, [ManagerCall.isRunningCall])
  else
    let ports := getPorts e pr.2
    ("\x7b\"success\":true,\"ports\":" ++ jsonStringArray ports ++
     ",\"count\":" ++ toString ports.length ++
     ",\"method\":\"native_api\",\"timestamp\":\"" ++ now ++ "\"\x7d",
     pr.2, [ManagerCall.isRunningCall, ManagerCall.getPortsCall])

/-- HttpServer::getJackConnections, lines 510-530. -/
def getJackConnections (e : JackEngine) (s : JackState) (now : String) : HandlerResult :=
  let pr := isRunningJack e s
  if !pr.1 then
    (jackNotRunningBody, pr.2, [ManagerCall.isRunningCall])
  else
    let conns := getConnections e pr.2
    ("\x7b\"success\":true,\"connections\":" ++ jsonConnArray conns ++
     ",\"count\":" ++ toString conns.length ++
     ",\"method\":\"native_api\",\"timestamp\":\"" ++ now ++ "\"\x7d",
     pr.2, [ManagerCall.isRunningCall, ManagerCall.getConnectionsCall])

/-- The success/failure body of handleConnect lines 563-566. -/
def connectResponseBody (ok : Bool) (now : String) : String :=
  "\x7b\"success\":" ++ boolStr ok ++ ",\"message\":\"" ++
  (if ok then "Connected" else "Failed") ++
  "\",\"method\":\"native_api\",\"timestamp\":\"" ++ now ++ "\"\x7d"

/-- The success/failure body of handleDisconnect lines 589-592. -/
def disconnectResponseBody (ok : Bool) (now : String) : String :=
  "\x7b\"success\":" ++ boolStr ok ++ ",\"message\":\"" ++
  (if ok then "Disconnected" else "Failed") ++
  "\",\"method\":\"native_api\",\"timestamp\":\"" ++ now ++ "\"\x7d"

/-- The body portion of a request: everything after the first blank line. -/
def bodyAfter (request : String) (idx : Nat) : String :=
  String.mk (request.data.drop (idx + 4))

/-- HttpServer::handleConnect, lines 543-567: missing separator and missing
fields fail before any JackManager call; then the probe gates the connect. -/
def handleConnect (e : JackEngine) (s : JackState) (now : String) (request : String) : HandlerResult :=
  match findSubIdx crlfCrlf request.data with
  | none => (noBodyErrorBody, s, [])
  | some idx =>
    let body := bodyAfter request idx
    let src := extractJsonValue body sourceKey
    let dst := extractJsonValue body destinationKey
    if src = "" ∨ dst = "" then
      (missingFieldBody, s, [])
    else
      let pr := isRunningJack e s
      if !pr.1 then
        (jackNotRunningBody, pr.2, [ManagerCall.isRunningCall])
      else
        let ok := connectPorts e pr.2 src dst
        (connectResponseBody ok now, pr.2,
         [ManagerCall.isRunningCall, ManagerCall.connectCall src dst])

/-- HttpServer::handleDisconnect, lines 569-593: same shape as
handleConnect with disconnectPorts at the end. -/
def handleDisconnect (e : JackEngine) (s : JackState) (now : String) (request : String) : HandlerResult :=
  match findSubIdx crlfCrlf request.data with
  | none => (noBodyErrorBody, s, [])
  | some idx =>
    let body := bodyAfter request idx
    let src := extractJsonValue body sourceKey
    let dst := extractJsonValue body destinationKey
    if src = "" ∨ dst = "" then
      (missingFieldBody, s, [])
    else
      let pr := isRunningJack e s
      if !pr.1 then
        (jackNotRunningBody, pr.2, [ManagerCall.isRunningCall])
      else
        let ok := disconnectPorts e pr.2 src dst
        (disconnectResponseBody ok now, pr.2,
         [ManagerCall.isRunningCall, ManagerCall.disconnectCall src dst])

/-- The body of handleClearAll lines 602-606. -/
def clearAllResponseBody (cleared : Nat) (now : String) : String :=
  "\x7b\"success\":true,\"message\":\"Cleared all connections\",\"count\":" ++
  toString cleared ++ ",\"method\":\"native_api\",\"timestamp\":\"" ++ now ++ "\"\x7d"

/-- HttpServer::handleClearAll, lines 595-607. -/
def handleClearAll (e : JackEngine) (s : JackState) (now : String) : HandlerResult :=
  let pr := isRunningJack e s
  if !pr.1 then
    (jackNotRunningBody, pr.2, [ManagerCall.isRunningCall])
  else
    let cleared := clearAllConnections e pr.2
    (clearAllResponseBody cleared now, pr.2,
     [ManagerCall.isRunningCall, ManagerCall.clearAllCall])

/-! ## Dispatch and response serialisation -/

/-- Method literal compared against at line 411. -/
def optionsMethod : String := "OPTIONS"

/-- Method literal compared against at lines 421-425. -/
def postMethod : String := "POST"

/-- Route literal of line 413. -/
def healthPath : String := "/health"

/-- Route literal of line 415. -/
def statusPath : String := "/status"

/-- Route literal of line 417. -/
def portsPath : String := "/ports"

/-- Route literal of line 419. -/
def connectionsPath : String := "/connections"

/-- Route literal of line 421. -/
def connectPath : String := "/connect"

/-- Route literal of line 423. -/
def disconnectPath : String := "/disconnect"

/-- Route literal of line 425. -/
def clearPath : String := "/clear"

/-- The if/else chain of processRequest lines 410-429: OPTIONS first, then
the four path-only routes, then the three POST-guarded routes, then the
not-found fallback.  The raw request is passed on because handleConnect
and handleDisconnect re-scan it for their body. -/
def dispatchBody (e : JackEngine) (s : JackState) (now : String)
    (request method path : String) : HandlerResult :=
  if method = optionsMethod then ("", s, [])
  else if path = healthPath then getHealthStatus e s now
  else if path = statusPath then getJackStatus e s now
  else if path = portsPath then getJackPorts e s now
  else if path = connectionsPath then getJackConnections e s now
  else if path = connectPath ∧ method = postMethod then handleConnect e s now request
  else if path = disconnectPath ∧ method = postMethod then handleDisconnect e s now request
  else if path = clearPath ∧ method = postMethod then handleClearAll e s now
  else (notFoundBody path, s, [])

/-- The fixed status line of line 435. -/
def statusLine : String := "HTTP/1.1 200 OK\r\n"

/-- The three CORS headers of lines 405-408. -/
def corsHeaders : String :=
  "Access-Control-Allow-Origin: *\r\n" ++
  "Access-Control-Allow-Methods: GET, POST, OPTIONS\r\n" ++
  "Access-Control-Allow-Headers: Content-Type\r\n"

/-- Everything of the wire response after the status line: CORS headers,
content type, computed content length, blank line, body (lines 436-440). -/
def responseTail (body : String) : String :=
  corsHeaders ++ "Content-Type: application/json\r\n" ++
  "Content-Length: " ++ toString body.length ++ "\r\n\r\n" ++ body

/-- The full wire response of lines 434-440; the status line is the same
for every body. -/
def buildHttpResponse (body : String) : String :=
  statusLine ++ responseTail body

/-- HttpServer::processRequest, lines 394-443: parse method and path from
the raw request, dispatch, wrap the body. -/
def processRequest (e : JackEngine) (s : JackState) (now : String)
    (request : String) : String × JackState × List ManagerCall :=
  let r := dispatchBody e s now request (parsedMethod request) (parsedPath request)
  (buildHttpResponse r.1, r.2)

/-- HttpServer::handleClient, lines 378-392: a single recv of at most
sizeof(buffer)-1 = 4095 bytes; nothing is sent when the read yields no
bytes, otherwise the truncated request is processed and the response
written once.  `input` is the byte stream the client sent. -/
def handleClient (e : JackEngine) (s : JackState) (now : String)
    (input : String) : Option String :=
  if input.data.length = 0 then none
  else some (processRequest e s now (String.mk (input.data.take 4095))).1

/-! ## Watchdog -/

/-- One 30-second tick of the main service loop, lines 744-756: probe via
isRunning; when the probe fails, shutdown then initialize; the tick always
completes and the loop keeps running whatever initialize returned. -/
def watchdogTick (e : JackEngine) (s : JackState) : JackState × List ManagerCall :=
  let pr := isRunningJack e s
  if pr.1 then
    (pr.2, [ManagerCall.isRunningCall])
  else
    let s2 := shutdownJack pr.2
    let r3 := initJack e s2
    (r3.2, [ManagerCall.isRunningCall, ManagerCall.shutdownCall, ManagerCall.initCall])

/-- Connectedness of the data model: a live handle whose last probe
verdict is positive. -/
def isConnectedState (s : JackState) : Bool :=
  s.jackClient.isSome && s.jackRunning

/-- Engine oracles against which open, activate and the sample-rate probe
all succeed. -/
def engineReachable (e : JackEngine) : Bool :=
  e.openOk && e.activateOk && !e.probeThrows && decide (0 < e.sampleRate)

/-- The invariant of claim C10: the running flag can only be set while a
client handle exists. -/
def stateInv (s : JackState) : Prop :=
  s.jackClient = none → s.jackRunning = false

/-! ## Shared concrete inputs for witnesses and counterexamples -/

/-- A fixed timestamp string standing in for getCurrentTimestamp. -/
def ts0 : String := "2025-01-01T00:00:00.000Z"

/-- A well-formed connect request. -/
def connectRequest : String :=
  "POST /connect HTTP/1.1\r\nContent-Type: application/json\r\n\r\n" ++
  "\x7b\"source\":\"system:capture_1\",\"destination\":\"system:playback_1\"\x7d"

/-- The /ports scenario request of the spec. -/
def getPortsRequest : String := "GET /ports HTTP/1.1\r\n\r\n"

/-- A POST on a path whose routing-table entry is GET. -/
def postPortsRequest : String := "POST /ports HTTP/1.1\r\n\r\n"

/-- A reachable engine with three current connections of which exactly the
two edges out of o1 can be disconnected. -/
def engineMixed : JackEngine :=
  { engineUp with
    outputPorts := ["o1", "o2"],
    portConnections := fun p => if p = "o1" then ["i1", "i2"] else ["i3"],
    disconnectResult := fun p _ => if p = "o1" then 0 else (-1) }

/-- A POST /connect request longer than the 4096-byte receive buffer: the
destination value is 4100 characters, so the single recv truncates the
request inside that value and the trailing source field is lost. -/
def bigConnectRequest : String :=
  "POST /connect HTTP/1.1\r\n\r\n\x7b\"destination\":\"" ++
  String.mk (List.replicate 4100 'x') ++ "\",\"source\":\"system:capture_1\"\x7d"

/-! ## Claim theorems -/

/-- Claim C6: while a live handle exists, initialize() returns true and
changes nothing — neither the handle nor the running flag — and a second
call is the same no-op. -/
theorem initJack_noop_when_connected (e : JackEngine) (s : JackState) (h : Nat)
    (hc : s.jackClient = some h) :
    initJack e s = (true, s) ∧ initJack e (initJack e s).2 = initJack e s := by
  have h1 : initJack e s = (true, s) := by
    simp [initJack, hc]
  refine ⟨h1, ?_⟩
  rw [h1]
  exact h1

/-- Witness for C6 at a concrete connected state. -/
theorem initJack_noop_when_connected_witness :
    stateConnected.jackClient = some 1 ∧
    (initJack engineUp stateConnected = (true, stateConnected) ∧
     initJack engineUp (initJack engineUp stateConnected).2 = initJack engineUp stateConnected) :=
  ⟨rfl, initJack_noop_when_connected engineUp stateConnected 1 rfl⟩

/-- Claim C10: the invariant "no handle implies not running" holds at
process start and is preserved by initialize (all paths), shutdown, the
isRunning probe and the JACK shutdown callback. -/
theorem stateInv_preserved (e : JackEngine) (s : JackState) (hs : stateInv s) :
    stateInv initialState ∧ stateInv (initJack e s).2 ∧ stateInv (shutdownJack s) ∧
    stateInv (isRunningJack e s).2 ∧ stateInv (jackShutdownCallback s) := by
  refine ⟨fun _ => rfl, ?_, ?_, ?_, ?_⟩
  · cases hc : s.jackClient with
    | some h => simp [initJack, hc, stateInv]
    | none =>
      have hr : s.jackRunning = false := hs hc
      simp only [initJack, hc]
      split
      · split
        · intro h
          simp at h
        · intro _
          exact hr
      · intro _
        exact hr
  · cases hc : s.jackClient with
    | some h => simp [shutdownJack, hc, stateInv]
    | none => simpa [shutdownJack, hc, stateInv] using hs
  · cases hc : s.jackClient with
    | some h =>
      simp only [isRunningJack, hc]
      split <;> simp [stateInv]
    | none => simpa [isRunningJack, hc, stateInv] using hs
  · intro _
    rfl

/-- Witness for C10 at the initial state. -/
theorem stateInv_preserved_witness :
    stateInv initialState ∧
    (stateInv initialState ∧ stateInv (initJack engineDown initialState).2 ∧
     stateInv (shutdownJack initialState) ∧
     stateInv (isRunningJack engineDown initialState).2 ∧
     stateInv (jackShutdownCallback initialState)) :=
  ⟨fun _ => rfl, stateInv_preserved engineDown initialState (fun _ => rfl)⟩

/-- Claim C9: a watchdog tick performs exactly the probe when the probe
succeeds, and exactly probe–shutdown–initialize when it fails; with a
reachable engine, one tick suffices to be Connected, from any state. -/
theorem watchdogTick_recovers (e : JackEngine) (s : JackState) :
    ((isRunningJack e s).1 = true →
      watchdogTick e s = ((isRunningJack e s).2, [ManagerCall.isRunningCall])) ∧
    ((isRunningJack e s).1 = false →
      watchdogTick e s =
        ((initJack e (shutdownJack (isRunningJack e s).2)).2,
         [ManagerCall.isRunningCall, ManagerCall.shutdownCall, ManagerCall.initCall])) ∧
    (engineReachable e = true → isConnectedState (watchdogTick e s).1 = true) := by
  refine ⟨?_, ?_, ?_⟩
  · intro hpr
    simp [watchdogTick, hpr]
  · intro hpr
    simp [watchdogTick, hpr]
  · intro hre
    simp only [engineReachable, Bool.and_eq_true, Bool.not_eq_true',
      decide_eq_true_eq] at hre
    obtain ⟨⟨⟨hopen, hact⟩, hthrow⟩, hsr⟩ := hre
    cases hc : s.jackClient with
    | some h =>
      simp [watchdogTick, isRunningJack, hc, hthrow, hsr, isConnectedState]
    | none =>
      simp [watchdogTick, isRunningJack, hc, shutdownJack, initJack, hopen, hact,
        isConnectedState]

/-- Witness for C9: from the disconnected initial state with a reachable
engine, one tick reaches the connected state. -/
theorem watchdogTick_recovers_witness :
    engineReachable engineUp = true ∧
    isConnectedState (watchdogTick engineUp initialState).1 = true :=
  ⟨by decide, (watchdogTick_recovers engineUp initialState).2.2 (by decide)⟩

/-- The clearAll loop counts exactly the edges whose disconnect call
returns 0. -/
theorem clearAllLoop_eq_filter (e : JackEngine) (l : List (String × String)) (acc : Nat) :
    clearAllLoop e l acc =
      acc + (l.filter (fun c => decide (e.disconnectResult c.1 c.2 = 0))).length := by
  induction l generalizing acc with
  | nil => simp [clearAllLoop]
  | cons c rest ih =>
    by_cases hd : e.disconnectResult c.1 c.2 = 0
    · simp [clearAllLoop, hd, ih]
      omega
    · simp [clearAllLoop, hd, ih]

/-- Claim C5: with a live, probe-positive handle, clearAll reports
success:true with count exactly the number of edges whose disconnect
succeeded; every edge is examined (the count is the filter over the whole
connection list) and the count never exceeds the number of edges. -/
theorem clearAll_counts_successes (e : JackEngine) (s : JackState) (now : String) (h : Nat)
    (hc : s.jackClient = some h) (hthrow : e.probeThrows = false) (hsr : 0 < e.sampleRate) :
    clearAllConnections e s =
      ((getConnections e s).filter
        (fun c => decide (e.disconnectResult c.1 c.2 = 0))).length ∧
    clearAllConnections e s ≤ (getConnections e s).length ∧
    (handleClearAll e s now).1 = clearAllResponseBody (clearAllConnections e s) now := by
  have hcount : clearAllConnections e s =
      ((getConnections e s).filter
        (fun c => decide (e.disconnectResult c.1 c.2 = 0))).length := by
    simp [clearAllConnections, hc, clearAllLoop_eq_filter, getConnections]
  refine ⟨hcount, ?_, ?_⟩
  · rw [hcount]
    exact List.length_filter_le _ _
  · have hclear : ∀ b : Bool, clearAllConnections e { jackClient := some h, jackRunning := b } =
        clearAllConnections e s := by
      intro b
      simp [clearAllConnections, getConnections, hc]
    simp [handleClearAll, isRunningJack, hc, hthrow, hsr, hclear]

/-- Witness for C5: three connections, two disconnectable — count 2. -/
theorem clearAll_counts_successes_witness :
    stateConnected.jackClient = some 1 ∧ engineMixed.probeThrows = false ∧
    0 < engineMixed.sampleRate ∧
    (clearAllConnections engineMixed stateConnected =
      ((getConnections engineMixed stateConnected).filter
        (fun c => decide (engineMixed.disconnectResult c.1 c.2 = 0))).length ∧
     clearAllConnections engineMixed stateConnected ≤
       (getConnections engineMixed stateConnected).length ∧
     (handleClearAll engineMixed stateConnected ts0).1 =
       clearAllResponseBody (clearAllConnections engineMixed stateConnected) ts0) ∧
    clearAllConnections engineMixed stateConnected = 2 ∧
    (getConnections engineMixed stateConnected).length = 3 :=
  ⟨rfl, rfl, by decide,
   clearAll_counts_successes engineMixed stateConnected ts0 1 rfl rfl (by decide),
   by decide, by decide⟩

set_option maxRecDepth 4096 in
/-- Claim C2 counterexample: when jack_connect reports EEXIST the
operation does succeed, but the response payload is byte-for-byte the one
of a fresh connect and contains no "alreadyConnected" marker, so the
already-connected case is not distinguished in the payload. -/
theorem connect_eexist_payload_not_distinguished :
    connectPorts engineEExist stateConnected ("system:capture_1") ("system:playback_1") = true ∧
    (handleConnect engineEExist stateConnected ts0 connectRequest).1 =
      connectResponseBody true ts0 ∧
    (handleConnect engineEExist stateConnected ts0 connectRequest).1 =
      (handleConnect engineUp stateConnected ts0 connectRequest).1 ∧
    (findSubIdx (("alreadyConnected").data)
      ((handleConnect engineEExist stateConnected ts0 connectRequest).1).data).isSome = false := by
  decide

/-- Claim C2 (amended): in a Connected state, a connect whose engine call
returns EEXIST yields success (true), and the success payload is the same
fixed Connected body used for a fresh connection — nothing in it marks the
already-connected case. -/
theorem connect_eexist_is_success (e : JackEngine) (s : JackState) (now a b : String) (h : Nat)
    (hc : s.jackClient = some h) (he : e.connectResult a b = EEXIST) :
    connectPorts e s a b = true ∧
    connectResponseBody (connectPorts e s a b) now = connectResponseBody true now := by
  have h1 : connectPorts e s a b = true := by
    simp [connectPorts, hc, he, EEXIST]
  exact ⟨h1, by rw [h1]⟩

/-- Witness for the amended C2 at a concrete pair. -/
theorem connect_eexist_is_success_witness :
    stateConnected.jackClient = some 1 ∧
    engineEExist.connectResult ("a") ("b") = EEXIST ∧
    (connectPorts engineEExist stateConnected ("a") ("b") = true ∧
     connectResponseBody (connectPorts engineEExist stateConnected ("a") ("b")) ts0 =
       connectResponseBody true ts0) :=
  ⟨rfl, rfl, connect_eexist_is_success engineEExist stateConnected ts0 ("a") ("b") 1 rfl rfl⟩

/-- Claim C3: every JackManager method's lock trace is balanced — the
g_jackMutex guard is released on every path — but clearAllConnections
re-acquires the mutex it already holds: its call to getConnections inlines
a second acquire at depth 1, the self-re-entry the claim rules out (on the
non-recursive std::mutex this is a self-deadlock). -/
theorem clearAll_reenters_held_lock :
    (traceBalanced initJackLockTrace 0 = true ∧
     traceBalanced shutdownJackLockTrace 0 = true ∧
     traceBalanced isRunningJackLockTrace 0 = true ∧
     traceBalanced getPortsLockTrace 0 = true ∧
     traceBalanced getConnectionsLockTrace 0 = true ∧
     traceBalanced connectPortsLockTrace 0 = true ∧
     traceBalanced disconnectPortsLockTrace 0 = true ∧
     traceBalanced getJackInfoLockTrace 0 = true ∧
     traceBalanced clearAllConnectionsLockTrace 0 = true) ∧
    (hasNestedAcquire initJackLockTrace 0 = false ∧
     hasNestedAcquire shutdownJackLockTrace 0 = false ∧
     hasNestedAcquire isRunningJackLockTrace 0 = false ∧
     hasNestedAcquire getPortsLockTrace 0 = false ∧
     hasNestedAcquire getConnectionsLockTrace 0 = false ∧
     hasNestedAcquire connectPortsLockTrace 0 = false ∧
     hasNestedAcquire disconnectPortsLockTrace 0 = false ∧
     hasNestedAcquire getJackInfoLockTrace 0 = false) ∧
    hasNestedAcquire clearAllConnectionsLockTrace 0 = true := by
  decide

set_option maxRecDepth 8192 in
/-- Claim C1: every response processRequest serialises — for every state,
method, path and operation outcome, success included — carries the one
fixed status line "HTTP/1.1 200 OK"; GET /ports against a manager without
a handle produces exactly the JACK-not-running error body inside that 200
response; and GET /ports against a live, probe-positive manager produces
the success body inside the very same 200 wrapper. -/
theorem processRequest_always_200 (e : JackEngine) (s : JackState) (now request : String) :
    (∃ tail, (processRequest e s now request).1 = statusLine ++ tail) ∧
    (s.jackClient = none →
      (processRequest e s now getPortsRequest).1 = buildHttpResponse jackNotRunningBody) ∧
    (processRequest engineUp stateConnected ts0 getPortsRequest).1 =
      buildHttpResponse
        ("\x7b\"success\":true,\"ports\":[\"system:capture_1\",\"system:playback_1\"]," ++
         "\"count\":2,\"method\":\"native_api\"," ++
         "\"timestamp\":\"2025-01-01T00:00:00.000Z\"\x7d") := by
  refine ⟨?_, ?_, ?_⟩
  · exact ⟨responseTail
      (dispatchBody e s now request (parsedMethod request) (parsedPath request)).1, rfl⟩
  · intro hc
    have hm : parsedMethod getPortsRequest = "GET" := by decide
    have hp : parsedPath getPortsRequest = "/ports" := by decide
    simp only [processRequest, hm, hp]
    have hd : dispatchBody e s now getPortsRequest ("GET") ("/ports") =
        getJackPorts e s now := by
      simp [dispatchBody, optionsMethod, healthPath, statusPath, portsPath]
    rw [hd]
    simp [getJackPorts, isRunningJack, hc]
  · decide

/-- Witness for C1 at the concrete disconnected initial state. -/
theorem processRequest_always_200_witness :
    (∃ tail, (processRequest engineDown initialState ts0 connectRequest).1 =
       statusLine ++ tail) ∧
    (processRequest engineDown initialState ts0 getPortsRequest).1 =
      buildHttpResponse jackNotRunningBody :=
  ⟨(processRequest_always_200 engineDown initialState ts0 connectRequest).1,
   (processRequest_always_200 engineDown initialState ts0 getPortsRequest).2.1 rfl⟩

set_option maxRecDepth 8192 in
/-- Claim C4 counterexample: POST to /ports — a method that does not match
the routing table's GET entry — is still served by the ports handler (here
the JACK-not-running body), not by the not-found fallback. -/
theorem post_on_get_route_not_notfound :
    (processRequest engineDown initialState ts0 postPortsRequest).1 =
      buildHttpResponse jackNotRunningBody ∧
    (processRequest engineDown initialState ts0 postPortsRequest).1 ≠
      buildHttpResponse (notFoundBody portsPath) := by
  decide

/-- Claim C4 (amended): OPTIONS short-circuits every path — the four read
routes included — to the empty body; /health, /status, /ports and
/connections are matched on path alone, so every non-OPTIONS method (POST
and DELETE included) reaches their handler; POST on /connect, /disconnect
and /clear dispatches to the respective handler; a non-OPTIONS, non-POST
method on those three paths falls to the Not-found body; and any method on
a path outside the whole table yields the Not-found body naming the
path. -/
theorem dispatch_routing_table (e : JackEngine) (s : JackState) (now request m p : String) :
    (dispatchBody e s now request optionsMethod p).1 = "" ∧
    (m ≠ optionsMethod →
      dispatchBody e s now request m healthPath = getHealthStatus e s now ∧
      dispatchBody e s now request m statusPath = getJackStatus e s now ∧
      dispatchBody e s now request m portsPath = getJackPorts e s now ∧
      dispatchBody e s now request m connectionsPath = getJackConnections e s now) ∧
    (dispatchBody e s now request postMethod connectPath = handleConnect e s now request ∧
     dispatchBody e s now request postMethod disconnectPath = handleDisconnect e s now request ∧
     dispatchBody e s now request postMethod clearPath = handleClearAll e s now) ∧
    (m ≠ optionsMethod → m ≠ postMethod →
      (dispatchBody e s now request m connectPath).1 = notFoundBody connectPath ∧
      (dispatchBody e s now request m disconnectPath).1 = notFoundBody disconnectPath ∧
      (dispatchBody e s now request m clearPath).1 = notFoundBody clearPath) ∧
    (m ≠ optionsMethod → p ≠ healthPath → p ≠ statusPath → p ≠ portsPath →
      p ≠ connectionsPath → p ≠ connectPath → p ≠ disconnectPath → p ≠ clearPath →
      (dispatchBody e s now request m p).1 = notFoundBody p) := by
  refine ⟨?_, ?_, ?_, ?_, ?_⟩
  · simp [dispatchBody]
  · intro hm
    refine ⟨?_, ?_, ?_, ?_⟩
    · simp [dispatchBody, hm]
    · simp [dispatchBody, hm, healthPath, statusPath]
    · simp [dispatchBody, hm, healthPath, statusPath, portsPath]
    · simp [dispatchBody, hm, healthPath, statusPath, portsPath, connectionsPath]
  · refine ⟨?_, ?_, ?_⟩
    · simp [dispatchBody, optionsMethod, postMethod, healthPath, statusPath, portsPath,
        connectionsPath, connectPath]
    · simp [dispatchBody, optionsMethod, postMethod, healthPath, statusPath, portsPath,
        connectionsPath, connectPath, disconnectPath]
    · simp [dispatchBody, optionsMethod, postMethod, healthPath, statusPath, portsPath,
        connectionsPath, connectPath, disconnectPath, clearPath]
  · intro hm hpost
    refine ⟨?_, ?_, ?_⟩
    · simp [dispatchBody, hm, hpost, healthPath, statusPath, portsPath, connectionsPath,
        connectPath]
    · simp [dispatchBody, hm, hpost, healthPath, statusPath, portsPath, connectionsPath,
        connectPath, disconnectPath]
    · simp [dispatchBody, hm, hpost, healthPath, statusPath, portsPath, connectionsPath,
        connectPath, disconnectPath, clearPath]
  · intro hm hp1 hp2 hp3 hp4 hp5 hp6 hp7
    simp [dispatchBody, hm, hp1, hp2, hp3, hp4, hp5, hp6, hp7]

/-- Witness for the amended C4: OPTIONS on a route path gives the empty
body, POST reaches the /health handler (path-only matching), POST /connect
reaches the connect handler, DELETE on /connect and on /bogus both fall to
the Not-found body. -/
theorem dispatch_routing_table_witness :
    (dispatchBody engineDown initialState ts0 postPortsRequest optionsMethod connectPath).1
      = "" ∧
    dispatchBody engineDown initialState ts0 postPortsRequest postMethod healthPath =
      getHealthStatus engineDown initialState ts0 ∧
    dispatchBody engineDown initialState ts0 postPortsRequest postMethod connectPath =
      handleConnect engineDown initialState ts0 postPortsRequest ∧
    (dispatchBody engineDown initialState ts0 postPortsRequest ("DELETE") connectPath).1 =
      notFoundBody connectPath ∧
    (dispatchBody engineDown initialState ts0 postPortsRequest ("DELETE") ("/bogus")).1 =
      notFoundBody ("/bogus") :=
  ⟨(dispatch_routing_table engineDown initialState ts0 postPortsRequest ("DELETE")
      connectPath).1,
   ((dispatch_routing_table engineDown initialState ts0 postPortsRequest postMethod
      ("/bogus")).2.1 (by decide)).1,
   (dispatch_routing_table engineDown initialState ts0 postPortsRequest postMethod
      ("/bogus")).2.2.1.1,
   ((dispatch_routing_table engineDown initialState ts0 postPortsRequest ("DELETE")
      ("/bogus")).2.2.2.1 (by decide) (by decide)).1,
   (dispatch_routing_table engineDown initialState ts0 postPortsRequest ("DELETE")
      ("/bogus")).2.2.2.2 (by decide) (by decide) (by decide) (by decide) (by decide)
      (by decide) (by decide) (by decide)⟩

/-- Claim C7: a POST /connect or /disconnect request without a blank-line
separator yields the No-request-body failure, and one whose body lacks a
non-empty source or destination yields the Missing-field failure; in both
cases the state is untouched and the list of JackManager calls is empty
(no engine access), and the wire response is still a well-formed 200. -/
theorem post_body_validation_no_engine_call (e : JackEngine) (s : JackState)
    (now request : String) :
    (findSubIdx crlfCrlf request.data = none →
      handleConnect e s now request = (noBodyErrorBody, s, []) ∧
      handleDisconnect e s now request = (noBodyErrorBody, s, [])) ∧
    (∀ idx, findSubIdx crlfCrlf request.data = some idx →
      (extractJsonValue (bodyAfter request idx) sourceKey = "" ∨
       extractJsonValue (bodyAfter request idx) destinationKey = "") →
      handleConnect e s now request = (missingFieldBody, s, []) ∧
      handleDisconnect e s now request = (missingFieldBody, s, [])) ∧
    (∃ body, (processRequest e s now request).1 = buildHttpResponse body) := by
  refine ⟨?_, ?_, ?_⟩
  · intro hnone
    constructor
    · simp [handleConnect, hnone]
    · simp [handleDisconnect, hnone]
  · intro idx hidx hempty
    constructor
    · simp only [handleConnect, hidx]
      rw [if_pos hempty]
    · simp only [handleDisconnect, hidx]
      rw [if_pos hempty]
  · exact ⟨(dispatchBody e s now request (parsedMethod request) (parsedPath request)).1, rfl⟩

/-- Witness for C7: a header-only request (no separator) and a request
with an empty JSON body (no fields). -/
theorem post_body_validation_no_engine_call_witness :
    (findSubIdx crlfCrlf ("POST /connect HTTP/1.1").data = none ∧
     handleConnect engineUp stateConnected ts0 ("POST /connect HTTP/1.1") =
       (noBodyErrorBody, stateConnected, []) ∧
     handleDisconnect engineUp stateConnected ts0 ("POST /connect HTTP/1.1") =
       (noBodyErrorBody, stateConnected, [])) ∧
    (findSubIdx crlfCrlf ("POST /connect HTTP/1.1\r\n\r\n\x7b\x7d").data = some 22 ∧
     handleConnect engineUp stateConnected ts0 ("POST /connect HTTP/1.1\r\n\r\n\x7b\x7d") =
       (missingFieldBody, stateConnected, []) ∧
     handleDisconnect engineUp stateConnected ts0 ("POST /connect HTTP/1.1\r\n\r\n\x7b\x7d") =
       (missingFieldBody, stateConnected, [])) :=
  ⟨⟨by decide,
    (post_body_validation_no_engine_call engineUp stateConnected ts0
      ("POST /connect HTTP/1.1")).1 (by decide)⟩,
   ⟨by decide,
    (post_body_validation_no_engine_call engineUp stateConnected ts0
      ("POST /connect HTTP/1.1\r\n\r\n\x7b\x7d")).2.1 22 (by decide) (by decide)⟩⟩

set_option maxRecDepth 100000 in
/-- Claim C8: the response a worker produces is a function of at most the
first 4096 bytes the client sent (the single recv reads at most
sizeof(buffer)-1 = 4095 of them and never loops for the rest), and the
over-long POST /connect request, truncated mid-value, is answered with the
Missing-field failure body rather than crashing. -/
theorem handleClient_truncates (e : JackEngine) (s : JackState) (now input : String) :
    handleClient e s now input =
      handleClient e s now (String.mk (input.data.take 4096)) ∧
    handleClient e s now bigConnectRequest =
      some (buildHttpResponse missingFieldBody) := by
  constructor
  · by_cases hlen : input.data.length = 0
    · have h0 : input.data = [] := List.length_eq_zero.mp hlen
      simp [handleClient, h0]
    · have h1 : (input.data.take 4096).length ≠ 0 := by
        rw [List.length_take]
        omega
      simp [handleClient, hlen, h1, List.take_take]
  · have hdata : bigConnectRequest.data =
        (("POST /connect HTTP/1.1\r\n\r\n\x7b\"destination\":\"").data ++
          List.replicate 4100 'x') ++ ("\",\"source\":\"system:capture_1\"\x7d").data := rfl
    have hlen : ¬ bigConnectRequest.data.length = 0 := by
      rw [hdata]
      simp only [List.length_append, List.length_replicate]
      omega
    have hm : parsedMethod (String.mk (bigConnectRequest.data.take 4095)) = "POST" := by
      decide
    have hp : parsedPath (String.mk (bigConnectRequest.data.take 4095)) = "/connect" := by
      decide
    have hfind : findSubIdx crlfCrlf (String.mk (bigConnectRequest.data.take 4095)).data =
        some 22 := by decide
    have hsrc : extractJsonValue
        (bodyAfter (String.mk (bigConnectRequest.data.take 4095)) 22) sourceKey = "" := by
      decide
    have hd : dispatchBody e s now (String.mk (bigConnectRequest.data.take 4095))
        ("POST") ("/connect") = handleConnect e s now
          (String.mk (bigConnectRequest.data.take 4095)) := by
      simp [dispatchBody, optionsMethod, healthPath, statusPath, portsPath,
        connectionsPath, connectPath, postMethod]
    simp only [handleClient, hlen, if_false, processRequest, hm, hp, hd]
    simp only [handleConnect, hfind]
    rw [if_pos (Or.inl hsrc)]
